import Mathlib

/-!
Shallow embedding of the analytics dashboard `src/app.py` (KTT Enterprise
Analytics): the period bucketizer, the cascading hierarchy filter with its
select-all fallback, the dual aggregation mode (count vs sum), the currency
formatter's threshold logic, the KPI computations of the executive summary,
and the numeric-prefix bin sorting of the operations tab.

Dates are modelled as (year, month, day) triples of naturals ordered
lexicographically; `pd.Timestamp.min` is the calendar date 1677-09-21.
Pandas columns that the loader coerces with `pd.to_numeric(...).fillna(0)`
are modelled as `Option Int` before the load and `Int` after it. Python's
`sorted()` on strings is modelled by insertion sort under an explicit
code-point lexicographic comparison.
-/

namespace KTT

/-- A calendar date, standing in for a `pandas.Timestamp` (time-of-day is
never used by the dashboard logic). -/
structure Date where
  year : Nat
  month : Nat
  day : Nat
deriving DecidableEq, Repr

/-- Strict chronological order on dates: lexicographic on (year, month, day),
matching `pandas.Timestamp` comparison on the date components. -/
def dateLt (a b : Date) : Prop :=
  a.year < b.year ∨ (a.year = b.year ∧ (a.month < b.month ∨ (a.month = b.month ∧ a.day < b.day)))

instance (a b : Date) : Decidable (dateLt a b) := by
  unfold dateLt; infer_instance

/-- The date part of `pd.Timestamp.min` (1677-09-21), used by `get_sort_key`
for rows whose event date failed to parse. -/
def tsMin : Date := ⟨1677, 9, 21⟩

/-- Last two characters of a string: Python `s[-2:]` (for a one-character
string it returns the whole string, as in Python). -/
def lastTwo (s : String) : String :=
  let l := s.toList
  String.mk (l.drop (l.length - 2))

/-- Embeds `categorize_period` (src/app.py lines 157-160):
`pd.isnull(dt)` is the `none` case; `dt.year < 2025` gives the fixed
pre-cutoff label; otherwise the f-string `'<last two digits of year>.<month>`. -/
def categorize_period : Option Date → String
  | none => "기간 미상"
  | some dt =>
      if dt.year < 2025 then "2024년 이전"
      else "'" ++ lastTwo (toString dt.year) ++ "." ++ toString dt.month

/-- Embeds `get_sort_key` (src/app.py lines 163-166): null dates get
`pd.Timestamp.min`, pre-cutoff dates get the fixed 2024-12-31 key, and
post-cutoff dates keep the raw date itself as their key. -/
def get_sort_key : Option Date → Date
  | none => tsMin
  | some dt => if dt.year < 2025 then ⟨2024, 12, 31⟩ else dt

/-- The derived per-record pair (`Period`, `SortKey`) that app.py stores in
the two extra dataframe columns (lines 161 and 167). -/
structure PeriodBucket where
  label : String
  sortKey : Date
deriving DecidableEq, Repr

/-- A record's period bucket: the label/sort-key pair derived from its event
date by `categorize_period` and `get_sort_key`. -/
def bucketize (d : Option Date) : PeriodBucket :=
  ⟨categorize_period d, get_sort_key d⟩

/-- Code-point lexicographic comparison of character lists, the order Python's
`sorted()` applies to strings. -/
def charLe : List Char → List Char → Bool
  | [], _ => true
  | _ :: _, [] => false
  | a :: as, b :: bs =>
    if a.toNat < b.toNat then true
    else if b.toNat < a.toNat then false
    else charLe as bs

/-- Python string comparison `a <= b`: code-point lexicographic. -/
def strLe (a b : String) : Bool := charLe a.toList b.toList

/-- The relation form of `strLe`, used as the sorting order. -/
def strLeP (a b : String) : Prop := strLe a b = true

instance : DecidableRel strLeP := fun _ _ => instDecidableEqBool _ _

/-- One row of the loaded dataframe, restricted to the columns the core logic
reads. String columns have already passed the loader's fillna("미지정") step;
numeric columns its `pd.to_numeric(...).fillna(0)` step (hence `Int`). -/
structure Record where
  hq : String
  branch : String
  manager : String
  status : String
  kpiStatus : String
  arrears : String
  contractId : Int
  fee : Int
  suspDays : Int
deriving DecidableEq, Repr

/-- Loader coercion of one numeric cell (src/app.py lines 173-175):
`pd.to_numeric(x, errors="coerce").fillna(0)`, with `none` standing for a
null/unparseable cell. -/
def loadNum (x : Option Int) : Int := x.getD 0

/-- Pandas "count" aggregation over a column: the number of non-null cells. -/
def pandasCount (col : List (Option Int)) : Nat :=
  (col.filter (fun x => x.isSome)).length

/-- Pandas "sum" aggregation over a column: null cells are skipped. -/
def pandasSum (col : List (Option Int)) : Int :=
  (col.map (fun x => x.getD 0)).sum

/-- VAL_COL (src/app.py line 293), keyed on the mode pill's literal label. -/
def VAL_COL (metric_mode : String) : String :=
  if metric_mode = "건수 (Volume)" then "계약번호" else "월정료(VAT미포함)"

/-- AGG_FUNC (src/app.py line 294). -/
def AGG_FUNC (metric_mode : String) : String :=
  if metric_mode = "건수 (Volume)" then "count" else "sum"

/-- Dispatch of a pandas `.agg(name)` call on an Option-valued column for the
two aggregator names the dashboard uses. -/
def pandasAgg (name : String) (col : List (Option Int)) : Int :=
  if name = "count" then (pandasCount col : Int) else pandasSum col

/-- Python `sorted()` on strings: code-point lexicographic, ascending. -/
def sortedStrings (l : List String) : List String :=
  List.insertionSort strLeP l

/-- all_hqs (src/app.py line 204): sorted unique 본부 values. -/
def all_hqs (df : List Record) : List String :=
  sortedStrings ((df.map Record.hq).dedup)

/-- valid_branches (line 216): sorted unique 지사 values among rows whose 본부
lies in the resolved HQ selection. -/
def valid_branches (df : List Record) (selHq : List String) : List String :=
  sortedStrings (((df.filter (fun r => selHq.contains r.hq)).map Record.branch).dedup)

/-- The sorted manager list of lines 234-237, before the 미지정 reordering. -/
def valid_managers_sorted (df : List Record) (selHq selBr : List String) : List String :=
  sortedStrings
    (((df.filter (fun r => selHq.contains r.hq && selBr.contains r.branch)).map
      Record.manager).dedup)

/-- valid_managers (lines 234-240): the sorted unique manager list, with the
미지정 sentinel removed from its sorted position and appended at the end when
present (`list.remove` then `list.append`). -/
def valid_managers (df : List Record) (selHq selBr : List String) : List String :=
  if "미지정" ∈ valid_managers_sorted df selHq selBr then
    (valid_managers_sorted df selHq selBr).erase "미지정" ++ ["미지정"]
  else valid_managers_sorted df selHq selBr

/-- The empty-selection fallback used at all three levels (lines 212, 230,
260): `if not selected: selected = valid`. -/
def resolveSel (raw valid : List String) : List String :=
  if raw.isEmpty then valid else raw

/-- Resolved HQ selection of a render pass. -/
def resolved_hq (df : List Record) (rawHq : List String) : List String :=
  resolveSel rawHq (all_hqs df)

/-- Resolved branch selection, whose candidates depend on the resolved HQs. -/
def resolved_branch (df : List Record) (rawHq rawBr : List String) : List String :=
  resolveSel rawBr (valid_branches df (resolved_hq df rawHq))

/-- Resolved manager selection, whose candidates depend on the two levels
above. -/
def resolved_managers (df : List Record) (rawHq rawBr rawMgr : List String) : List String :=
  resolveSel rawMgr
    (valid_managers df (resolved_hq df rawHq) (resolved_branch df rawHq rawBr))

/-- Substring containment on character lists, embedding the
`Series.str.contains("대상")` test of line 275 (the pattern has no regex
metacharacters, so it is plain substring search). -/
def containsSub (needle : List Char) : List Char → Bool
  | [] => needle.isEmpty
  | c :: t => needle.isPrefixOf (c :: t) || containsSub needle t

/-- The row mask (src/app.py lines 271-276): conjunction of hierarchy
membership and the two optional toggles. -/
def rowMask (selHq selBr selMgr : List String) (kpiTarget arrearsOnly : Bool)
    (r : Record) : Bool :=
  selHq.contains r.hq && selBr.contains r.branch && selMgr.contains r.manager &&
  (!kpiTarget || containsSub "대상".toList r.kpiStatus.toList) &&
  (!arrearsOnly || (r.arrears != "-" && r.arrears != "Unclassified" && r.arrears != "미지정"))

/-- df_filtered (line 278). -/
def df_filtered (df : List Record) (selHq selBr selMgr : List String)
    (kpiTarget arrearsOnly : Bool) : List Record :=
  df.filter (rowMask selHq selBr selMgr kpiTarget arrearsOnly)

/-- susp_df (line 305): rows whose 정지,설변구분 equals 정지. -/
def susp_df (rs : List Record) : List Record :=
  rs.filter (fun r => r.status == "정지")

/-- chg_df (line 306): rows whose 정지,설변구분 equals 설변. -/
def chg_df (rs : List Record) : List Record :=
  rs.filter (fun r => r.status == "설변")

/-- KPI v1 (lines 309-313): suspension count in Volume mode, suspension fee
sum in Revenue mode. -/
def kpi_v1 (metric_mode : String) (rs : List Record) : Int :=
  if metric_mode = "건수 (Volume)" then ((susp_df rs).length : Int)
  else ((susp_df rs).map Record.fee).sum

/-- KPI v2 (lines 309-313): the same for change rows. -/
def kpi_v2 (metric_mode : String) (rs : List Record) : Int :=
  if metric_mode = "건수 (Volume)" then ((chg_df rs).length : Int)
  else ((chg_df rs).map Record.fee).sum

/-- KPI k3 (line 318): mean of 당월말_정지일수; pandas yields NaN on an empty
column, modelled as `none`. -/
def mean_susp_days (rs : List Record) : Option ℚ :=
  if rs.isEmpty then none
  else some (((rs.map Record.suspDays).sum : ℚ) / (rs.length : ℚ))

/-- risk_cnt (line 320). -/
def risk_cnt (rs : List Record) : Nat :=
  (rs.filter (fun r => r.status == "정지")).length

/-- KPI k4 (line 322): the suspension rate in percent; the guard
`if total_cnt>0` makes the empty case the literal "0%", modelled as 0. -/
def risk_rate (rs : List Record) : ℚ :=
  if 0 < rs.length then (risk_cnt rs : ℚ) / (rs.length : ℚ) * 100 else 0

/-- The outputs of one executive-summary render pass. -/
structure RenderOut where
  filtered : List Record
  v1 : Int
  v2 : Int
  k3 : Option ℚ
  k4 : ℚ
deriving DecidableEq

/-- One render pass: filter once, then compute the four KPIs under the chosen
aggregation-mode pill. -/
def renderPass (metric_mode : String) (df : List Record)
    (selHq selBr selMgr : List String) (kpiTarget arrearsOnly : Bool) : RenderOut :=
  let f := df_filtered df selHq selBr selMgr kpiTarget arrearsOnly
  ⟨f, kpi_v1 metric_mode f, kpi_v2 metric_mode f, mean_susp_days f, risk_rate f⟩

/-- The shape of a `format_korean_currency` result (src/app.py lines 125-136):
either the literal "0" or a value scaled by a divisor, printed with a given
number of decimals and a unit suffix. The float rendering itself is outside
the embedding; the claims concern the threshold logic. -/
inductive KCFormat where
  | zeroLiteral : KCFormat
  | scaled (divisor : Nat) (decimals : Nat) (unit : String) : KCFormat
deriving DecidableEq, Repr

/-- The branch logic of `format_korean_currency` (lines 131-136): zero is the
literal "0"; |v| ≥ 1e6 scales by 1e6 with one decimal and unit 백만; everything
else scales by 1e3 with no decimals and unit 천. -/
def format_korean_currency_choice (value : Int) : KCFormat :=
  if value = 0 then .zeroLiteral
  else if 1000000 ≤ value.natAbs then .scaled 1000000 1 "백만"
  else .scaled 1000 0 "천"

/-- Modelled from the spec: the three-tier formatter the spec describes
(|v| ≥ 1e8 divides by 1e8 with one decimal; |v| ≥ 1e6 divides by 1e6 with one
decimal; else divides by 1e3 with no decimals), kept for comparison with the
source's two-tier `format_korean_currency_choice`. -/
def format_currency_choice_spec (value : Int) : KCFormat :=
  if 100000000 ≤ value.natAbs then .scaled 100000000 1 "억"
  else if 1000000 ≤ value.natAbs then .scaled 1000000 1 "백만"
  else .scaled 1000 0 "천"

/-- The divisor a formatter choice applies (1 for the literal "0"). -/
def kcDivisor : KCFormat → Nat
  | .zeroLiteral => 1
  | .scaled d _ _ => d

/-- Accumulates the decimal value of a maximal leading digit run: the
`int(nums[0])` step of `extract_num` once the run has been found. -/
def readDigits : List Char → Nat → Nat
  | [], acc => acc
  | c :: t, acc => if c.isDigit then readDigits t (acc * 10 + (c.toNat - 48)) else acc

/-- Scan for the first digit of the string, then read its maximal digit run;
0 when no digit occurs (the `if nums else 0` branch). -/
def extractNumL : List Char → Nat
  | [] => 0
  | c :: t => if c.isDigit then readDigits (c :: t) 0 else extractNumL t

/-- Embeds `extract_num` (src/app.py lines 425-427): the integer value of the
first digit run `re.findall` would return, or 0 for a digitless label. -/
def extract_num (s : String) : Nat := extractNumL s.toList

/-- The comparison realized by the bin tables' `sort_values("sort")` call:
ascending in the extracted numeric prefix of the bin label. -/
def binLe (a b : String × Int) : Prop :=
  extract_num a.1 ≤ extract_num b.1

instance : DecidableRel binLe := fun a b => Nat.decLe (extract_num a.1) (extract_num b.1)

instance : IsTotal (String × Int) binLe := ⟨fun _ _ => Nat.le_total _ _⟩

instance : IsTrans (String × Int) binLe := ⟨fun _ _ _ => Nat.le_trans⟩

instance : IsRefl (String × Int) binLe := ⟨fun _ => Nat.le_refl _⟩

/-- A grouped bin table (label, aggregated value) sorted by the numeric prefix
of its label, as done for the duration-interval table (lines 432-435) and the
price-interval table (lines 442-445). -/
def sortBinTable (t : List (String × Int)) : List (String × Int) :=
  List.insertionSort binLe t

/-- A small concrete dataset (fields: 본부, 지사, 담당자, 구분, KPI, 체납,
계약번호, 월정료, 정지일수) used by witnesses and counterexamples. -/
def dfSample : List Record :=
  [⟨"강북본부", "강북지사", "김담당", "정지", "대상", "-", 1001, 35000, 10⟩,
   ⟨"강북본부", "도봉지사", "미지정", "설변", "-", "체납", 1002, 1200000, 0⟩,
   ⟨"강남본부", "서초지사", "박담당", "정지", "대상아님", "미지정", 1003, 99000, 4⟩]

theorem charLe_total : ∀ l1 l2 : List Char, charLe l1 l2 = true ∨ charLe l2 l1 = true
  | [], _ => Or.inl rfl
  | _ :: _, [] => Or.inr rfl
  | a :: as, b :: bs => by
    simp only [charLe]
    rcases Nat.lt_trichotomy a.toNat b.toNat with h | h | h
    · left; simp [h]
    · have h1 : ¬ a.toNat < b.toNat := by omega
      have h2 : ¬ b.toNat < a.toNat := by omega
      simpa [h1, h2] using charLe_total as bs
    · right; simp [h]

theorem charLe_trans : ∀ l1 l2 l3 : List Char,
    charLe l1 l2 = true → charLe l2 l3 = true → charLe l1 l3 = true
  | [], _, _, _, _ => rfl
  | _ :: _, [], _, h, _ => by simp [charLe] at h
  | _ :: _, _ :: _, [], _, h => by simp [charLe] at h
  | a :: as, b :: bs, c :: cs, h1, h2 => by
    simp only [charLe] at h1 h2 ⊢
    rcases Nat.lt_trichotomy a.toNat b.toNat with hab | hab | hab
    · rcases Nat.lt_trichotomy b.toNat c.toNat with hbc | hbc | hbc
      · have hac : a.toNat < c.toNat := by omega
        simp [hac]
      · have hac : a.toNat < c.toNat := by omega
        simp [hac]
      · have k1 : ¬ b.toNat < c.toNat := by omega
        simp [k1, hbc] at h2
    · rcases Nat.lt_trichotomy b.toNat c.toNat with hbc | hbc | hbc
      · have hac : a.toNat < c.toNat := by omega
        simp [hac]
      · have m1 : ¬ a.toNat < b.toNat := by omega
        have m2 : ¬ b.toNat < a.toNat := by omega
        have k1 : ¬ b.toNat < c.toNat := by omega
        have k2 : ¬ c.toNat < b.toNat := by omega
        have n1 : ¬ a.toNat < c.toNat := by omega
        have n2 : ¬ c.toNat < a.toNat := by omega
        simp [m1, m2] at h1
        simp [k1, k2] at h2
        simp [n1, n2]
        exact charLe_trans as bs cs h1 h2
      · have k1 : ¬ b.toNat < c.toNat := by omega
        simp [k1, hbc] at h2
    · have m1 : ¬ a.toNat < b.toNat := by omega
      simp [m1, hab] at h1

instance : IsTotal String strLeP := ⟨fun a b => charLe_total a.toList b.toList⟩

instance : IsTrans String strLeP := ⟨fun a b c => charLe_trans a.toList b.toList c.toList⟩

/-- Helper: the three fallback properties of a single `resolveSel` level. -/
theorem resolveSel_spec (raw valid : List String) :
    (raw = [] → resolveSel raw valid = valid) ∧
    (valid ≠ [] → resolveSel raw valid ≠ []) ∧
    (resolveSel raw valid = [] → valid = []) := by
  unfold resolveSel
  rcases raw with _ | ⟨a, t⟩
  · simp
  · simp

/-- Helper: a string with no digit characters extracts to 0. -/
theorem extractNumL_no_digits (l : List Char) (h : ∀ c ∈ l, ¬ c.isDigit) :
    extractNumL l = 0 := by
  induction l with
  | nil => rfl
  | cons c t ih =>
    have hc : ¬ c.isDigit := h c (List.mem_cons_self c t)
    simp only [extractNumL, hc, if_false, Bool.false_eq_true]
    exact ih (fun x hx => h x (List.mem_cons_of_mem c hx))

end KTT

namespace KTT

/-- C2 counterexample: 2025-01-15 and 2025-01-20 are both post-cutoff and share
(year, month), yet their buckets differ because `get_sort_key` keeps the raw
date, and the sort key of 2025-01-15 is not the first day of January 2025. -/
theorem C2_counterexample :
    2025 ≤ (⟨2025, 1, 15⟩ : Date).year ∧ 2025 ≤ (⟨2025, 1, 20⟩ : Date).year ∧
    (⟨2025, 1, 15⟩ : Date).year = (⟨2025, 1, 20⟩ : Date).year ∧
    (⟨2025, 1, 15⟩ : Date).month = (⟨2025, 1, 20⟩ : Date).month ∧
    bucketize (some ⟨2025, 1, 15⟩) ≠ bucketize (some ⟨2025, 1, 20⟩) ∧
    get_sort_key (some ⟨2025, 1, 15⟩) ≠ ⟨2025, 1, 1⟩ := by
  decide

/-- C2 (amended): for post-cutoff dates with equal (year, month) the labels
agree, but the sort key is the raw event date itself (not the first day of the
month), so the full buckets coincide exactly when the dates are equal. -/
theorem C2_same_month_bucket (d1 d2 : Date) (h1 : 2025 ≤ d1.year) (h2 : 2025 ≤ d2.year)
    (hy : d1.year = d2.year) (hm : d1.month = d2.month) :
    categorize_period (some d1) = categorize_period (some d2) ∧
    get_sort_key (some d1) = d1 ∧ get_sort_key (some d2) = d2 ∧
    (bucketize (some d1) = bucketize (some d2) ↔ d1 = d2) := by
  have n1 : ¬ d1.year < 2025 := Nat.not_lt.mpr h1
  have n2 : ¬ d2.year < 2025 := Nat.not_lt.mpr h2
  refine ⟨by simp [categorize_period, n1, n2, hy, hm], by simp [get_sort_key, n1],
    by simp [get_sort_key, n2], ?_⟩
  constructor
  · intro h
    have hk := congrArg PeriodBucket.sortKey h
    simpa [bucketize, get_sort_key, n1, n2] using hk
  · intro h
    rw [h]

/-- C2 witness at 2025-03-05 vs 2025-03-28. -/
theorem C2_same_month_bucket_witness :
    categorize_period (some ⟨2025, 3, 5⟩) = categorize_period (some ⟨2025, 3, 28⟩) ∧
    get_sort_key (some ⟨2025, 3, 5⟩) = ⟨2025, 3, 5⟩ ∧
    get_sort_key (some ⟨2025, 3, 28⟩) = ⟨2025, 3, 28⟩ ∧
    (bucketize (some ⟨2025, 3, 5⟩) = bucketize (some ⟨2025, 3, 28⟩) ↔
      (⟨2025, 3, 5⟩ : Date) = ⟨2025, 3, 28⟩) :=
  C2_same_month_bucket ⟨2025, 3, 5⟩ ⟨2025, 3, 28⟩ (by decide) (by decide) rfl rfl

/-- C3: every date strictly before the 2025 cutoff year collapses to the one
pre-cutoff bucket with label "2024년 이전" and sort key 2024-12-31, regardless
of its month or year. -/
theorem C3_precutoff_collapse (d1 d2 : Date) (h1 : d1.year < 2025) (h2 : d2.year < 2025) :
    bucketize (some d1) = ⟨"2024년 이전", ⟨2024, 12, 31⟩⟩ ∧
    bucketize (some d1) = bucketize (some d2) := by
  have e1 : bucketize (some d1) = ⟨"2024년 이전", ⟨2024, 12, 31⟩⟩ := by
    simp [bucketize, categorize_period, get_sort_key, h1]
  have e2 : bucketize (some d2) = ⟨"2024년 이전", ⟨2024, 12, 31⟩⟩ := by
    simp [bucketize, categorize_period, get_sort_key, h2]
  exact ⟨e1, e1.trans e2.symm⟩

/-- C3 witness at 2024-03-01 vs 2020-11-09. -/
theorem C3_precutoff_collapse_witness :
    bucketize (some ⟨2024, 3, 1⟩) = ⟨"2024년 이전", ⟨2024, 12, 31⟩⟩ ∧
    bucketize (some ⟨2024, 3, 1⟩) = bucketize (some ⟨2020, 11, 9⟩) :=
  C3_precutoff_collapse ⟨2024, 3, 1⟩ ⟨2020, 11, 9⟩ (by decide) (by decide)

/-- C4: the sort keys produced by `get_sort_key` order the buckets as claimed:
the unclassified key `tsMin` is strictly below every key of a dated record; the
single pre-cutoff key 2024-12-31 is strictly below every monthly key; monthly
keys respect (year, month) chronology with no interleaving; and every dated
record's key is either the pre-cutoff key or a post-cutoff date, so nothing
sorts between the pre-cutoff bucket and the earliest monthly bucket. -/
theorem C4_bucket_ordering (d d1 d2 : Date)
    (hp1 : 2025 ≤ d1.year) (hp2 : 2025 ≤ d2.year)
    (hchron : d1.year < d2.year ∨ (d1.year = d2.year ∧ d1.month < d2.month)) :
    get_sort_key none = tsMin ∧
    dateLt tsMin (get_sort_key (some d)) ∧
    dateLt ⟨2024, 12, 31⟩ (get_sort_key (some d1)) ∧
    dateLt (get_sort_key (some d1)) (get_sort_key (some d2)) ∧
    (get_sort_key (some d) = ⟨2024, 12, 31⟩ ∨ 2025 ≤ (get_sort_key (some d)).year) := by
  have n1 : ¬ d1.year < 2025 := Nat.not_lt.mpr hp1
  have n2 : ¬ d2.year < 2025 := Nat.not_lt.mpr hp2
  refine ⟨rfl, ?_, ?_, ?_, ?_⟩
  · by_cases hd : d.year < 2025
    · simp only [get_sort_key, if_pos hd]
      exact Or.inl (by norm_num [tsMin])
    · simp only [get_sort_key, if_neg hd]
      exact Or.inl (by simp [tsMin]; omega)
  · simp only [get_sort_key, if_neg n1]
    exact Or.inl (show 2024 < d1.year by omega)
  · simp only [get_sort_key, if_neg n1, if_neg n2]
    rcases hchron with hy | ⟨hy, hm⟩
    · exact Or.inl hy
    · exact Or.inr ⟨hy, Or.inl hm⟩
  · by_cases hd : d.year < 2025
    · simp [get_sort_key, hd]
    · simp only [get_sort_key, if_neg hd]
      omega

/-- C4 witness with an unclassified record, a 2019 pre-cutoff record, and two
monthly records 2025-01-15 and 2025-02-01. -/
theorem C4_bucket_ordering_witness :
    get_sort_key none = tsMin ∧
    dateLt tsMin (get_sort_key (some ⟨2019, 6, 30⟩)) ∧
    dateLt ⟨2024, 12, 31⟩ (get_sort_key (some ⟨2025, 1, 15⟩)) ∧
    dateLt (get_sort_key (some ⟨2025, 1, 15⟩)) (get_sort_key (some ⟨2025, 2, 1⟩)) ∧
    (get_sort_key (some ⟨2019, 6, 30⟩) = ⟨2024, 12, 31⟩ ∨
      2025 ≤ (get_sort_key (some ⟨2019, 6, 30⟩)).year) :=
  C4_bucket_ordering ⟨2019, 6, 30⟩ ⟨2025, 1, 15⟩ ⟨2025, 2, 1⟩ (by decide) (by decide)
    (Or.inr ⟨rfl, by decide⟩)

end KTT

namespace KTT

/-- C1: select-all fallback invariant of the cascading filter, at all three
levels (headquarters, branch, manager): an empty raw selection resolves to the
full valid candidate list of its level; the resolved selection is non-empty
whenever the valid candidates are; and it is empty only when there are zero
valid candidates. -/
theorem C1_select_all_fallback (df : List Record) (rawHq rawBr rawMgr : List String) :
    (rawHq = [] → resolved_hq df rawHq = all_hqs df) ∧
    (all_hqs df ≠ [] → resolved_hq df rawHq ≠ []) ∧
    (resolved_hq df rawHq = [] → all_hqs df = []) ∧
    (rawBr = [] → resolved_branch df rawHq rawBr = valid_branches df (resolved_hq df rawHq)) ∧
    (valid_branches df (resolved_hq df rawHq) ≠ [] → resolved_branch df rawHq rawBr ≠ []) ∧
    (resolved_branch df rawHq rawBr = [] → valid_branches df (resolved_hq df rawHq) = []) ∧
    (rawMgr = [] → resolved_managers df rawHq rawBr rawMgr =
      valid_managers df (resolved_hq df rawHq) (resolved_branch df rawHq rawBr)) ∧
    (valid_managers df (resolved_hq df rawHq) (resolved_branch df rawHq rawBr) ≠ [] →
      resolved_managers df rawHq rawBr rawMgr ≠ []) ∧
    (resolved_managers df rawHq rawBr rawMgr = [] →
      valid_managers df (resolved_hq df rawHq) (resolved_branch df rawHq rawBr) = []) := by
  obtain ⟨h1, h2, h3⟩ := resolveSel_spec rawHq (all_hqs df)
  obtain ⟨b1, b2, b3⟩ := resolveSel_spec rawBr (valid_branches df (resolved_hq df rawHq))
  obtain ⟨m1, m2, m3⟩ := resolveSel_spec rawMgr
    (valid_managers df (resolved_hq df rawHq) (resolved_branch df rawHq rawBr))
  exact ⟨h1, h2, h3, b1, b2, b3, m1, m2, m3⟩

/-- C1 witness: on the sample dataset with all raw selections empty, each
level resolves to its full candidate list, which is non-empty. -/
theorem C1_select_all_fallback_witness :
    resolved_hq dfSample [] = all_hqs dfSample ∧
    resolved_branch dfSample [] [] = valid_branches dfSample (resolved_hq dfSample []) ∧
    resolved_managers dfSample [] [] [] =
      valid_managers dfSample (resolved_hq dfSample []) (resolved_branch dfSample [] []) ∧
    resolved_hq dfSample [] ≠ [] := by
  obtain ⟨h1, h2, _, b1, _, _, m1, _, _⟩ := C1_select_all_fallback dfSample [] [] []
  exact ⟨h1 rfl, b1 rfl, m1 rfl, h2 (by decide)⟩

/-- C5: Volume mode resolves to the 계약번호 column with aggregator count, and
count on the loaded (never-null after `fillna(0)`) contract-id column equals
the record count; Revenue mode resolves to the 월정료(VAT미포함) column with
aggregator sum, which equals the sum of fees over the record set. -/
theorem C5_mode_mapping (raw : List (Option Int)) (rs : List Record) :
    VAL_COL "건수 (Volume)" = "계약번호" ∧ AGG_FUNC "건수 (Volume)" = "count" ∧
    VAL_COL "금액 (Revenue)" = "월정료(VAT미포함)" ∧ AGG_FUNC "금액 (Revenue)" = "sum" ∧
    pandasAgg (AGG_FUNC "건수 (Volume)") (raw.map (fun x => some (loadNum x))) =
      (raw.length : Int) ∧
    pandasAgg (AGG_FUNC "금액 (Revenue)") (rs.map (fun r => some r.fee)) =
      (rs.map Record.fee).sum := by
  refine ⟨rfl, rfl, rfl, rfl, ?_, ?_⟩
  · show (pandasCount (raw.map (fun x => some (loadNum x))) : Int) = (raw.length : Int)
    have hc : pandasCount (raw.map (fun x => some (loadNum x))) = raw.length := by
      induction raw with
      | nil => rfl
      | cons x t ih =>
        simp only [pandasCount, List.map_cons, List.filter_cons, Option.isSome_some,
          if_true, List.length_cons] at ih ⊢
        omega
    rw [hc]
  · show pandasSum (rs.map (fun r => some r.fee)) = (rs.map Record.fee).sum
    simp [pandasSum, List.map_map, Function.comp_def, Option.getD_some]

/-- C6 counterexample: at value 100000000 (= 1e8) the source formatter divides
by 1e6 (unit 백만), not by 1e8 as the claim's top tier requires; the spec's
three-tier formatter disagrees with the source there. -/
theorem C6_counterexample :
    100000000 ≤ (100000000 : Int).natAbs ∧
    format_korean_currency_choice 100000000 = .scaled 1000000 1 "백만" ∧
    kcDivisor (format_korean_currency_choice 100000000) ≠ 100000000 ∧
    kcDivisor (format_currency_choice_spec 100000000) = 100000000 := by
  decide

/-- C6 (amended): the source formatter has only two magnitude tiers plus a
zero literal: zero renders as "0"; |v| ≥ 1e6 divides by 1e6 with one decimal
(unit 백만); everything else divides by 1e3 with no decimals (unit 천). There
is no 1e8 tier. -/
theorem C6_format_tiers (v : Int) (hv : v ≠ 0) :
    (1000000 ≤ v.natAbs → format_korean_currency_choice v = .scaled 1000000 1 "백만") ∧
    (v.natAbs < 1000000 → format_korean_currency_choice v = .scaled 1000 0 "천") ∧
    format_korean_currency_choice 0 = .zeroLiteral := by
  refine ⟨?_, ?_, rfl⟩
  · intro h
    simp [format_korean_currency_choice, hv, h]
  · intro h
    have hn : ¬ 1000000 ≤ v.natAbs := by omega
    simp [format_korean_currency_choice, hv, hn]

/-- C6 witness at 250000000 (2.5e8), which the source renders in the 백만
tier. -/
theorem C6_format_tiers_witness :
    format_korean_currency_choice 250000000 = .scaled 1000000 1 "백만" :=
  (C6_format_tiers 250000000 (by decide)).1 (by decide)

/-- C7 (amended): toggling the aggregation-mode pill with dataset, selections
and toggles fixed leaves the filtered record set unchanged (the mask never
reads the mode), and the mean-suspension-days KPI (k3) and the suspension-rate
KPI (k4, count-based by construction) are also unchanged; only the v1/v2
metrics switch from suspension/change counts to fee sums. -/
theorem C7_mode_toggle (df : List Record) (selHq selBr selMgr : List String)
    (kpiT arrOnly : Bool) :
    (renderPass "건수 (Volume)" df selHq selBr selMgr kpiT arrOnly).filtered =
      (renderPass "금액 (Revenue)" df selHq selBr selMgr kpiT arrOnly).filtered ∧
    (renderPass "건수 (Volume)" df selHq selBr selMgr kpiT arrOnly).k3 =
      (renderPass "금액 (Revenue)" df selHq selBr selMgr kpiT arrOnly).k3 ∧
    (renderPass "건수 (Volume)" df selHq selBr selMgr kpiT arrOnly).k4 =
      (renderPass "금액 (Revenue)" df selHq selBr selMgr kpiT arrOnly).k4 ∧
    (renderPass "건수 (Volume)" df selHq selBr selMgr kpiT arrOnly).v1 =
      ((susp_df (df_filtered df selHq selBr selMgr kpiT arrOnly)).length : Int) ∧
    (renderPass "금액 (Revenue)" df selHq selBr selMgr kpiT arrOnly).v1 =
      ((susp_df (df_filtered df selHq selBr selMgr kpiT arrOnly)).map Record.fee).sum :=
  ⟨rfl, rfl, rfl, rfl, rfl⟩

/-- C7 counterexample to the claim as stated: on the sample dataset with the
fallback-resolved selections and toggles off, the filtered sets of the two
runs agree (3 records) but the k3 and k4 KPI values also agree, so it is false
that every KPI value changes when the mode toggles. -/
theorem C7_counterexample :
    (renderPass "건수 (Volume)" dfSample (resolved_hq dfSample [])
        (resolved_branch dfSample [] []) (resolved_managers dfSample [] [] [])
        false false).filtered =
      (renderPass "금액 (Revenue)" dfSample (resolved_hq dfSample [])
        (resolved_branch dfSample [] []) (resolved_managers dfSample [] [] [])
        false false).filtered ∧
    (renderPass "건수 (Volume)" dfSample (resolved_hq dfSample [])
        (resolved_branch dfSample [] []) (resolved_managers dfSample [] [] [])
        false false).filtered.length = 3 ∧
    (renderPass "건수 (Volume)" dfSample (resolved_hq dfSample [])
        (resolved_branch dfSample [] []) (resolved_managers dfSample [] [] [])
        false false).k3 =
      (renderPass "금액 (Revenue)" dfSample (resolved_hq dfSample [])
        (resolved_branch dfSample [] []) (resolved_managers dfSample [] [] [])
        false false).k3 ∧
    (renderPass "건수 (Volume)" dfSample (resolved_hq dfSample [])
        (resolved_branch dfSample [] []) (resolved_managers dfSample [] [] [])
        false false).k4 =
      (renderPass "금액 (Revenue)" dfSample (resolved_hq dfSample [])
        (resolved_branch dfSample [] []) (resolved_managers dfSample [] [] [])
        false false).k4 :=
  ⟨rfl, by decide, rfl, rfl⟩

/-- C8: the suspension-rate computation is division-safe: the empty filtered
set yields the defined value 0 (rendered "0%"); a non-empty set yields the
ratio of suspension count to total count (as a percentage). -/
theorem C8_rate_division_defense (rs : List Record) (h : rs ≠ []) :
    risk_rate [] = 0 ∧
    risk_rate rs = (risk_cnt rs : ℚ) / (rs.length : ℚ) * 100 := by
  refine ⟨rfl, ?_⟩
  have hp : 0 < rs.length := List.length_pos.mpr h
  simp [risk_rate, hp]

/-- C8 witness on the sample dataset (2 of 3 records suspended). -/
theorem C8_rate_division_defense_witness :
    risk_rate [] = 0 ∧
    risk_rate dfSample = (risk_cnt dfSample : ℚ) / (dfSample.length : ℚ) * 100 :=
  C8_rate_division_defense dfSample (by decide)

/-- C9: the headquarters and branch option lists are plainly sorted in
code-point order; the manager list is the sorted unique list with the 미지정
sentinel (when present) removed from its sorted position and appended last,
so 미지정 is the final element while the remainder stays sorted. -/
theorem C9_option_ordering (df : List Record) (selHq selBr : List String)
    (hm : "미지정" ∈ valid_managers_sorted df selHq selBr) :
    List.Sorted strLeP (all_hqs df) ∧
    List.Sorted strLeP (valid_branches df selHq) ∧
    valid_managers df selHq selBr =
      (valid_managers_sorted df selHq selBr).erase "미지정" ++ ["미지정"] ∧
    (valid_managers df selHq selBr).getLast? = some "미지정" ∧
    List.Sorted strLeP ((valid_managers_sorted df selHq selBr).erase "미지정") := by
  have hs : List.Sorted strLeP (valid_managers_sorted df selHq selBr) :=
    List.sorted_insertionSort _ _
  have he : valid_managers df selHq selBr =
      (valid_managers_sorted df selHq selBr).erase "미지정" ++ ["미지정"] := by
    simp [valid_managers, hm]
  refine ⟨List.sorted_insertionSort _ _, List.sorted_insertionSort _ _, he, ?_, ?_⟩
  · rw [he]
    exact List.getLast?_concat _
  · exact hs.sublist (List.erase_sublist _ _)

/-- C9 witness on the sample dataset, whose manager column contains 미지정. -/
theorem C9_option_ordering_witness :
    List.Sorted strLeP (all_hqs dfSample) ∧
    List.Sorted strLeP (valid_branches dfSample (all_hqs dfSample)) ∧
    valid_managers dfSample (all_hqs dfSample) (valid_branches dfSample (all_hqs dfSample)) =
      (valid_managers_sorted dfSample (all_hqs dfSample)
        (valid_branches dfSample (all_hqs dfSample))).erase "미지정" ++ ["미지정"] ∧
    (valid_managers dfSample (all_hqs dfSample)
      (valid_branches dfSample (all_hqs dfSample))).getLast? = some "미지정" ∧
    List.Sorted strLeP ((valid_managers_sorted dfSample (all_hqs dfSample)
      (valid_branches dfSample (all_hqs dfSample))).erase "미지정") :=
  C9_option_ordering dfSample (all_hqs dfSample) (valid_branches dfSample (all_hqs dfSample))
    (by decide)

/-- C10: the bin tables sort ascending by the first integer substring of the
label; a digitless label gets key 0; and in the sorted output an element with
a positive key is never followed by a key-0 element, so digitless bins sort
before (not after) every bin whose first number is positive. -/
theorem C10_bin_sorting (t : List (String × Int)) (s : String)
    (hs : ∀ c ∈ s.toList, ¬ c.isDigit) :
    extract_num s = 0 ∧
    List.Sorted binLe (sortBinTable t) ∧
    (∀ i j : Fin (sortBinTable t).length, i ≤ j →
      0 < extract_num ((sortBinTable t).get i).1 →
      0 < extract_num ((sortBinTable t).get j).1) := by
  refine ⟨extractNumL_no_digits s.toList hs, List.sorted_insertionSort _ _, ?_⟩
  intro i j hij hi
  have hr : binLe ((sortBinTable t).get i) ((sortBinTable t).get j) :=
    (List.sorted_insertionSort binLe t).rel_get_of_le hij
  exact lt_of_lt_of_le hi hr

/-- C10 witness on a concrete bin table with a digitless label. -/
theorem C10_bin_sorting_witness :
    extract_num "기타" = 0 ∧
    List.Sorted binLe (sortBinTable [("30일 이상", 5), ("기타", 2), ("1~9일", 7)]) ∧
    (∀ i j : Fin (sortBinTable [("30일 이상", 5), ("기타", 2), ("1~9일", 7)]).length, i ≤ j →
      0 < extract_num ((sortBinTable [("30일 이상", 5), ("기타", 2), ("1~9일", 7)]).get i).1 →
      0 < extract_num ((sortBinTable [("30일 이상", 5), ("기타", 2), ("1~9일", 7)]).get j).1) :=
  C10_bin_sorting [("30일 이상", 5), ("기타", 2), ("1~9일", 7)] "기타" (by decide)

end KTT
